import Mathlib

/-!
Shallow embedding of the job-processing loop of
src/kafka-network-automation.py: the function process_jobs (lines 56-131)
together with the lock guard AsyncNetworkDeviceLock (lines 14-53).

One iteration of the async-for body is modelled as a pure function of the
outcomes of the external calls it makes (etcd get and put, lock acquire and
release, consumer commit, and the protected work).  The function returns
the ordered trace of externally visible events of that iteration together
with its outcome: continue to the next message, or an exception
propagating out of the loop body.

Python exceptions are modelled by ExcKind: the single handler at line 123
catches exactly RuntimeError; every other exception kind is collapsed into
otherError.  Byte strings are modelled as String, a missing etcd key as
none.
-/

/-- A job message after json.loads, lines 76-78 of the source. -/
structure Job where
  job_id : String
  device : String
deriving DecidableEq

/-- Kind of a Python exception: RuntimeError, the only kind the handler at
line 123 catches, or anything else. -/
inductive ExcKind where
  | runtimeError
  | otherError
deriving DecidableEq

/-- Result of one call into an external collaborator: a returned value, or
a raised exception of the given kind. -/
inductive CallResult (α : Type) where
  | ok : α → CallResult α
  | exc : ExcKind → CallResult α
deriving DecidableEq

/-- The outcomes of the external calls one iteration can make, fixed up
front as an oracle.  ledgerGet is the etcd get of the job status key
(line 89); lockAcquire is lock.acquire run in the executor (line 36),
returning whether the lease was obtained; work is the protected work
(line 108); ledgerPut is the etcd put of COMPLETED (line 115); commit is
consumer.commit (lines 95 and 120); release is lock.release (line 51). -/
structure Env where
  ledgerGet : CallResult (Option String)
  lockAcquire : CallResult Bool
  work : CallResult Unit
  ledgerPut : CallResult Unit
  commit : CallResult Unit
  release : CallResult Unit

/-- Externally visible events of one iteration, in execution order. -/
inductive Event where
  | getStatus (key : String)
  | acquireLock (lockname : String)
  | workRun (device : String)
  | putStatus (key : String) (value : String)
  | releaseLock (lockname : String)
  | commitMsg
  | sleepBackoff (seconds : Nat)
deriving DecidableEq

/-- How one iteration of the loop body ends: proceed to the next message,
or an exception propagates out of the async-for body. -/
inductive Outcome where
  | next
  | raised (e : ExcKind)
deriving DecidableEq

/-- The job status key built at line 79 of the source. -/
def statusKey (jobId : String) : String := "/jobs/" ++ jobId ++ "/status"

/-- The lock key built at line 22 of the source. -/
def lockName (device : String) : String := "/locks/device/" ++ device

/-- The deduplication test at line 91 of the source: current_value is
truthy and equals the byte string COMPLETED.  none models a missing key;
Python truthiness makes the empty byte string falsy. -/
def dedupHit : Option String → Bool
  | none => false
  | some s => (!s.isEmpty) && (s == "COMPLETED")

/-- The handler at lines 123-126 of the source: a RuntimeError is caught,
logged, and followed by a fixed five second backoff before the next poll;
any other exception propagates out of the loop body. -/
def handleExc (t : List Event) (e : ExcKind) : List Event × Outcome :=
  match e with
  | .runtimeError => (t ++ [.sleepBackoff 5], .next)
  | .otherError => (t, .raised .otherError)

/-- An exception escaping the body of the async-with block: the guard's
aexit (lines 48-53) releases the held lock first; if the release itself
raises, that exception replaces the original.  The surviving exception
then reaches the handler at line 123. -/
def exitAndHandle (t : List Event) (lockname : String) (rel : CallResult Unit)
    (e : ExcKind) : List Event × Outcome :=
  match rel with
  | .ok _ => handleExc (t ++ [.releaseLock lockname]) e
  | .exc f => handleExc (t ++ [.releaseLock lockname]) f

/-- One iteration of the async-for body of process_jobs (lines 75-126 of
the source), as the ordered trace of its events plus its outcome.  The
dedup get at line 89 is outside the try block, as is the commit of the
skip path at line 95; the lock guard, the work, the marking put and the
success-path commit at line 120 are inside it. -/
def process_jobs_iter (job : Job) (env : Env) : List Event × Outcome :=
  let key := statusKey job.job_id
  let lname := lockName job.device
  match env.ledgerGet with
  | .exc e => ([.getStatus key], .raised e)
  | .ok v =>
    if dedupHit v then
      match env.commit with
      | .exc e => ([.getStatus key, .commitMsg], .raised e)
      | .ok _ => ([.getStatus key, .commitMsg], .next)
    else
      match env.lockAcquire with
      | .exc e => handleExc [.getStatus key, .acquireLock lname] e
      | .ok false => handleExc [.getStatus key, .acquireLock lname] .runtimeError
      | .ok true =>
        match env.work with
        | .exc e =>
          exitAndHandle [.getStatus key, .acquireLock lname, .workRun job.device]
            lname env.release e
        | .ok _ =>
          match env.ledgerPut with
          | .exc e =>
            exitAndHandle [.getStatus key, .acquireLock lname, .workRun job.device,
              .putStatus key "COMPLETED"] lname env.release e
          | .ok _ =>
            match env.release with
            | .exc f =>
              handleExc [.getStatus key, .acquireLock lname, .workRun job.device,
                .putStatus key "COMPLETED", .releaseLock lname] f
            | .ok _ =>
              match env.commit with
              | .exc e =>
                handleExc [.getStatus key, .acquireLock lname, .workRun job.device,
                  .putStatus key "COMPLETED", .releaseLock lname, .commitMsg] e
              | .ok _ =>
                ([.getStatus key, .acquireLock lname, .workRun job.device,
                  .putStatus key "COMPLETED", .releaseLock lname, .commitMsg], .next)

/-- Classifier: the event is an invocation of the protected work. -/
def isWorkEv : Event → Bool
  | .workRun _ => true
  | _ => false

/-- Classifier: the event is a lock acquisition attempt. -/
def isAcquireEv : Event → Bool
  | .acquireLock _ => true
  | _ => false

/-- Classifier: the event is a ledger put. -/
def isPutEv : Event → Bool
  | .putStatus _ _ => true
  | _ => false

/-- Classifier: the event is a stream acknowledgment. -/
def isCommitEv : Event → Bool
  | .commitMsg => true
  | _ => false

/-- Classifier: the event is a lock release attempt. -/
def isReleaseEv : Event → Bool
  | .releaseLock _ => true
  | _ => false

/-- Classifier: the event is the fixed backoff pause. -/
def isBackoffEv : Event → Bool
  | .sleepBackoff _ => true
  | _ => false

/-- The outcome is a propagated exception. -/
def isRaised : Outcome → Bool
  | .raised _ => true
  | .next => false

/-- Scanning the trace left to right, a put of COMPLETED to the given key
is found before any commit; vacuously true when no commit occurs at all. -/
def putBeforeAnyCommit (key : String) : List Event → Bool
  | [] => true
  | .commitMsg :: _ => false
  | .putStatus k v :: t =>
      if k == key && v == "COMPLETED" then true else putBeforeAnyCommit key t
  | _ :: t => putBeforeAnyCommit key t

/-- The first event among commits and releases in the trace is a commit,
and a release follows it later. -/
def commitBeforeRelease : List Event → Bool
  | [] => false
  | .commitMsg :: t => t.any isReleaseEv
  | .releaseLock _ :: _ => false
  | _ :: t => commitBeforeRelease t

/-- Concrete job used by witnesses and counterexamples. -/
def job42 : Job := ⟨"42", "r1"⟩

/-- Environment where every external call succeeds and the ledger has no
entry for the job. -/
def allOk : Env := ⟨.ok none, .ok true, .ok (), .ok (), .ok (), .ok ()⟩

/-- The dedup test accepts the exact marker value. -/
theorem dedupHit_completed : dedupHit (some "COMPLETED") = true := by decide

/-- C2: a job whose job_id already holds COMPLETED in the ledger at dedup
time never invokes the protected work, never attempts lock acquisition,
is acknowledged immediately, and, when the acknowledgment succeeds, the
iteration proceeds to the next job. -/
theorem dedup_skip_no_work (job : Job) (env : Env)
    (h : env.ledgerGet = .ok (some "COMPLETED")) :
    (process_jobs_iter job env).1 = [.getStatus (statusKey job.job_id), .commitMsg] ∧
    ((process_jobs_iter job env).1.any isWorkEv = false ∧
     (process_jobs_iter job env).1.any isAcquireEv = false) ∧
    (process_jobs_iter job env).1.any isCommitEv = true ∧
    (env.commit = .ok () → (process_jobs_iter job env).2 = .next) := by
  rcases env with ⟨g, a, w, p, c, r⟩
  simp only at h
  subst h
  rcases c with u | e <;>
    simp [process_jobs_iter, dedupHit_completed, isWorkEv, isAcquireEv, isCommitEv]

/-- Environment where the ledger already records COMPLETED for the job
and every external call succeeds. -/
def envSkip : Env := ⟨.ok (some "COMPLETED"), .ok true, .ok (), .ok (), .ok (), .ok ()⟩

/-- C2 witness: the skip theorem instantiated at a concrete job and
environment. -/
theorem dedup_skip_no_work_witness :
    (process_jobs_iter job42 envSkip).1 =
      [.getStatus (statusKey job42.job_id), .commitMsg] ∧
    ((process_jobs_iter job42 envSkip).1.any isWorkEv = false ∧
     (process_jobs_iter job42 envSkip).1.any isAcquireEv = false) ∧
    (process_jobs_iter job42 envSkip).1.any isCommitEv = true ∧
    (envSkip.commit = .ok () → (process_jobs_iter job42 envSkip).2 = .next) :=
  dedup_skip_no_work job42 envSkip rfl

/-- C4: when the ledger does not show the job completed and the lock
acquisition is denied, the message is never acknowledged, the marker is
never written, no work runs, and a fixed five second backoff precedes the
next poll. -/
theorem lock_denied_no_ack (job : Job) (env : Env) (v : Option String)
    (hg : env.ledgerGet = .ok v) (hv : dedupHit v = false)
    (ha : env.lockAcquire = .ok false) :
    (process_jobs_iter job env).1 =
      [.getStatus (statusKey job.job_id), .acquireLock (lockName job.device),
       .sleepBackoff 5] ∧
    ((process_jobs_iter job env).1.any isCommitEv = false ∧
     (process_jobs_iter job env).1.any isPutEv = false ∧
     (process_jobs_iter job env).1.any isWorkEv = false) ∧
    (process_jobs_iter job env).2 = .next := by
  rcases env with ⟨g, a, w, p, c, r⟩
  simp only at hg ha
  subst hg; subst ha
  simp [process_jobs_iter, hv, handleExc, isCommitEv, isPutEv, isWorkEv]

/-- Environment where the ledger is empty for the job and the lock
acquisition returns false. -/
def envDenied : Env := ⟨.ok none, .ok false, .ok (), .ok (), .ok (), .ok ()⟩

/-- C4 witness: the lock denial theorem instantiated at a concrete job
and environment. -/
theorem lock_denied_no_ack_witness :
    (process_jobs_iter job42 envDenied).1 =
      [.getStatus (statusKey job42.job_id), .acquireLock (lockName job42.device),
       .sleepBackoff 5] ∧
    ((process_jobs_iter job42 envDenied).1.any isCommitEv = false ∧
     (process_jobs_iter job42 envDenied).1.any isPutEv = false ∧
     (process_jobs_iter job42 envDenied).1.any isWorkEv = false) ∧
    (process_jobs_iter job42 envDenied).2 = .next :=
  lock_denied_no_ack job42 envDenied none rfl rfl rfl

/-- C5: once the guard has acquired the lock, a release attempt appears in
the trace on every exit from the critical section, whatever the outcomes
of the work, the put, the release itself and the commit. -/
theorem release_on_every_exit (job : Job) (env : Env) (v : Option String)
    (hg : env.ledgerGet = .ok v) (hv : dedupHit v = false)
    (ha : env.lockAcquire = .ok true) :
    (process_jobs_iter job env).1.any isReleaseEv = true := by
  rcases env with ⟨g, a, w, p, c, r⟩
  simp only at hg ha
  subst hg; subst ha
  rcases w with u | e
  · rcases p with u' | e'
    · rcases r with u'' | f
      · rcases c with u''' | e'''
        · simp [process_jobs_iter, hv, handleExc, isReleaseEv]
        · cases e''' <;> simp [process_jobs_iter, hv, handleExc, isReleaseEv]
      · simp [process_jobs_iter, hv, handleExc, isReleaseEv]
        cases f <;> simp [handleExc, isReleaseEv]
    · simp [process_jobs_iter, hv, exitAndHandle, handleExc, isReleaseEv]
      rcases r with u'' | f
      · cases e' <;> simp [handleExc, isReleaseEv]
      · cases f <;> simp [handleExc, isReleaseEv]
  · simp [process_jobs_iter, hv, exitAndHandle, handleExc, isReleaseEv]
    rcases r with u'' | f
    · cases e <;> simp [handleExc, isReleaseEv]
    · cases f <;> simp [handleExc, isReleaseEv]

/-- C5 witness: the release theorem instantiated at a concrete job and
the all-success environment. -/
theorem release_on_every_exit_witness :
    (process_jobs_iter job42 allOk).1.any isReleaseEv = true :=
  release_on_every_exit job42 allOk none rfl rfl rfl

/-- Environment where the dedup ledger read itself raises. -/
def envGetFail : Env := ⟨.exc .otherError, .ok true, .ok (), .ok (), .ok (), .ok ()⟩

/-- C7 counterexample: at a concrete job, when the ledger read raises, the
iteration propagates the exception and never reaches lock acquisition, so
the read failure is not treated as not-completed. -/
theorem ledger_read_failure_counterexample :
    envGetFail.ledgerGet = .exc .otherError ∧
    (process_jobs_iter job42 envGetFail).2 = .raised .otherError ∧
    (process_jobs_iter job42 envGetFail).1.any isAcquireEv = false := by
  decide

/-- C7 amended: when the completion-ledger read raises during the dedup
check, the exception propagates out of the iteration after only the get
event, with no lock acquisition attempted; the dedup get is outside the
try block of the source. -/
theorem ledger_read_failure_propagates (job : Job) (env : Env) (e : ExcKind)
    (hg : env.ledgerGet = .exc e) :
    (process_jobs_iter job env).1 = [.getStatus (statusKey job.job_id)] ∧
    (process_jobs_iter job env).2 = .raised e := by
  rcases env with ⟨g, a, w, p, c, r⟩
  simp only at hg
  subst hg
  simp [process_jobs_iter]

/-- C7 witness: the amended read-failure theorem instantiated at a
concrete job and environment. -/
theorem ledger_read_failure_propagates_witness :
    (process_jobs_iter job42 envGetFail).1 = [.getStatus (statusKey job42.job_id)] ∧
    (process_jobs_iter job42 envGetFail).2 = .raised .otherError :=
  ledger_read_failure_propagates job42 envGetFail .otherError rfl

/-- C1: for every job whose protected work is invoked and completes
successfully, the completion-marker put to the job status key precedes
any stream acknowledgment in the trace; in no such execution does the
acknowledgment come first. -/
theorem marker_write_precedes_ack (job : Job) (env : Env)
    (hw : env.work = .ok ())
    (hran : (process_jobs_iter job env).1.any isWorkEv = true) :
    putBeforeAnyCommit (statusKey job.job_id) (process_jobs_iter job env).1 = true := by
  rcases env with ⟨g, a, w, p, c, r⟩
  simp only at hw
  subst hw
  rcases g with v | e
  · rcases hv : dedupHit v with _ | _
    · rcases a with b | e
      · rcases b with _ | _
        · simp [process_jobs_iter, hv, handleExc, isWorkEv] at hran
        · rcases p with u | e
          · rcases r with u' | f
            · rcases c with u'' | e''
              · simp [process_jobs_iter, hv, putBeforeAnyCommit]
              · cases e'' <;>
                  simp [process_jobs_iter, hv, handleExc, putBeforeAnyCommit]
            · cases f <;>
                simp [process_jobs_iter, hv, handleExc, putBeforeAnyCommit]
          · rcases r with u' | f
            · cases e <;>
                simp [process_jobs_iter, hv, exitAndHandle, handleExc, putBeforeAnyCommit]
            · cases f <;>
                simp [process_jobs_iter, hv, exitAndHandle, handleExc, putBeforeAnyCommit]
      · cases e <;> simp [process_jobs_iter, hv, handleExc, isWorkEv] at hran
    · rcases c with u | e <;> simp [process_jobs_iter, hv, isWorkEv] at hran
  · simp [process_jobs_iter, isWorkEv] at hran

/-- C1 witness: the ordering theorem instantiated at a concrete job and
the all-success environment. -/
theorem marker_write_precedes_ack_witness :
    (process_jobs_iter job42 allOk).1.any isWorkEv = true ∧
    putBeforeAnyCommit (statusKey job42.job_id) (process_jobs_iter job42 allOk).1 = true :=
  ⟨by decide, marker_write_precedes_ack job42 allOk rfl (by decide)⟩

/-- C3 counterexample: on the all-success run at a concrete job both a
commit and a release occur, the iteration continues normally, yet no
commit precedes the release: the source commits the offset only after
the async-with block has already released the lock, refuting the claimed
mark-acknowledge-release order. -/
theorem success_order_counterexample :
    (process_jobs_iter job42 allOk).2 = .next ∧
    (process_jobs_iter job42 allOk).1.any isCommitEv = true ∧
    (process_jobs_iter job42 allOk).1.any isReleaseEv = true ∧
    commitBeforeRelease (process_jobs_iter job42 allOk).1 = false := by decide

/-- C3 amended: on the success path the finalization steps run in the
order mark_completed, then release the device lock, then acknowledge the
message, as the full success trace shows. -/
theorem success_finalization_order (job : Job) (env : Env) (v : Option String)
    (hg : env.ledgerGet = .ok v) (hv : dedupHit v = false)
    (ha : env.lockAcquire = .ok true) (hw : env.work = .ok ())
    (hp : env.ledgerPut = .ok ()) (hr : env.release = .ok ())
    (hc : env.commit = .ok ()) :
    (process_jobs_iter job env).1 =
      [.getStatus (statusKey job.job_id), .acquireLock (lockName job.device),
       .workRun job.device, .putStatus (statusKey job.job_id) "COMPLETED",
       .releaseLock (lockName job.device), .commitMsg] ∧
    (process_jobs_iter job env).2 = .next := by
  rcases env with ⟨g, a, w, p, c, r⟩
  simp only at hg ha hw hp hr hc
  subst hg; subst ha; subst hw; subst hp; subst hr; subst hc
  simp [process_jobs_iter, hv]

/-- C3 witness: the amended ordering theorem instantiated at a concrete
job and the all-success environment. -/
theorem success_finalization_order_witness :
    (process_jobs_iter job42 allOk).1 =
      [.getStatus (statusKey job42.job_id), .acquireLock (lockName job42.device),
       .workRun job42.device, .putStatus (statusKey job42.job_id) "COMPLETED",
       .releaseLock (lockName job42.device), .commitMsg] ∧
    (process_jobs_iter job42 allOk).2 = .next :=
  success_finalization_order job42 allOk none rfl rfl rfl rfl rfl rfl rfl

/-- Environment where the protected work raises a RuntimeError and every
other external call succeeds. -/
def envWorkRte : Env := ⟨.ok none, .ok true, .exc .runtimeError, .ok (), .ok (), .ok ()⟩

/-- C6 counterexample: at a concrete job whose protected work raises a
RuntimeError, the iteration ends with outcome next, so the failure does
not propagate to the caller: the handler for lock denial also catches it. -/
theorem work_failure_counterexample :
    envWorkRte.work = .exc .runtimeError ∧
    (process_jobs_iter job42 envWorkRte).1.any isWorkEv = true ∧
    (process_jobs_iter job42 envWorkRte).2 = .next := by decide

/-- C6 amended: when the protected work raises, the job is not marked
complete, the message is not acknowledged, and the lock is released; the
failure propagates to the caller only when it is not a RuntimeError,
while a RuntimeError is caught by the lock-contention handler and the
loop continues. -/
theorem work_failure_handling (job : Job) (env : Env) (v : Option String) (e : ExcKind)
    (hg : env.ledgerGet = .ok v) (hv : dedupHit v = false)
    (ha : env.lockAcquire = .ok true) (hw : env.work = .exc e)
    (hr : env.release = .ok ()) :
    ((process_jobs_iter job env).1.any isPutEv = false ∧
     (process_jobs_iter job env).1.any isCommitEv = false ∧
     (process_jobs_iter job env).1.any isReleaseEv = true) ∧
    (e = .otherError → (process_jobs_iter job env).2 = .raised .otherError) ∧
    (e = .runtimeError → (process_jobs_iter job env).2 = .next) := by
  rcases env with ⟨g, a, w, p, c, r⟩
  simp only at hg ha hw hr
  subst hg; subst ha; subst hw; subst hr
  cases e <;>
    simp [process_jobs_iter, hv, exitAndHandle, handleExc, isPutEv, isCommitEv,
      isReleaseEv]

/-- Environment where the protected work raises a non-RuntimeError
exception and every other external call succeeds. -/
def envWorkErr : Env := ⟨.ok none, .ok true, .exc .otherError, .ok (), .ok (), .ok ()⟩

/-- C6 witness: the amended work-failure theorem instantiated at a
concrete job with a non-RuntimeError work failure. -/
theorem work_failure_handling_witness :
    ((process_jobs_iter job42 envWorkErr).1.any isPutEv = false ∧
     (process_jobs_iter job42 envWorkErr).1.any isCommitEv = false ∧
     (process_jobs_iter job42 envWorkErr).1.any isReleaseEv = true) ∧
    (ExcKind.otherError = .otherError →
      (process_jobs_iter job42 envWorkErr).2 = .raised .otherError) ∧
    (ExcKind.otherError = .runtimeError →
      (process_jobs_iter job42 envWorkErr).2 = .next) :=
  work_failure_handling job42 envWorkErr none .otherError rfl rfl rfl rfl rfl

/-- C8: when the protected work succeeds but the completion-marker put
raises, the message is never acknowledged in that iteration, and the
failure surfaces: the outcome is a propagated exception or the logged
error path with its backoff runs. -/
theorem marker_write_failure_no_ack (job : Job) (env : Env) (v : Option String)
    (e : ExcKind)
    (hg : env.ledgerGet = .ok v) (hv : dedupHit v = false)
    (ha : env.lockAcquire = .ok true) (hw : env.work = .ok ())
    (hp : env.ledgerPut = .exc e) :
    (process_jobs_iter job env).1.any isCommitEv = false ∧
    (isRaised (process_jobs_iter job env).2 ||
      (process_jobs_iter job env).1.any isBackoffEv) = true := by
  rcases env with ⟨g, a, w, p, c, r⟩
  simp only at hg ha hw hp
  subst hg; subst ha; subst hw; subst hp
  rcases r with u | f
  · cases e <;>
      simp [process_jobs_iter, hv, exitAndHandle, handleExc, isCommitEv, isBackoffEv,
        isRaised]
  · cases f <;>
      simp [process_jobs_iter, hv, exitAndHandle, handleExc, isCommitEv, isBackoffEv,
        isRaised]

/-- Environment where the completion-marker put raises a RuntimeError and
every other external call succeeds. -/
def envPutFail : Env := ⟨.ok none, .ok true, .ok (), .exc .runtimeError, .ok (), .ok ()⟩

/-- C8 witness: the marker-write-failure theorem instantiated at a
concrete job and environment. -/
theorem marker_write_failure_no_ack_witness :
    (process_jobs_iter job42 envPutFail).1.any isCommitEv = false ∧
    (isRaised (process_jobs_iter job42 envPutFail).2 ||
      (process_jobs_iter job42 envPutFail).1.any isBackoffEv) = true :=
  marker_write_failure_no_ack job42 envPutFail none .runtimeError rfl rfl rfl rfl rfl

/-- C9: a RuntimeError raised by the protected work or by the
completion-marker put inside the locked section is caught by the single
handler: the release runs first, then the backoff, the iteration ends
with next, and no acknowledgment occurs. -/
theorem critical_section_runtime_error_swallowed (job : Job) (env : Env)
    (v : Option String)
    (hg : env.ledgerGet = .ok v) (hv : dedupHit v = false)
    (ha : env.lockAcquire = .ok true) (hr : env.release = .ok ())
    (h : env.work = .exc .runtimeError ∨
         (env.work = .ok () ∧ env.ledgerPut = .exc .runtimeError)) :
    ((process_jobs_iter job env).1 =
       [.getStatus (statusKey job.job_id), .acquireLock (lockName job.device),
        .workRun job.device, .releaseLock (lockName job.device), .sleepBackoff 5] ∨
     (process_jobs_iter job env).1 =
       [.getStatus (statusKey job.job_id), .acquireLock (lockName job.device),
        .workRun job.device, .putStatus (statusKey job.job_id) "COMPLETED",
        .releaseLock (lockName job.device), .sleepBackoff 5]) ∧
    (process_jobs_iter job env).2 = .next ∧
    (process_jobs_iter job env).1.any isCommitEv = false := by
  rcases env with ⟨g, a, w, p, c, r⟩
  simp only at hg ha hr h
  subst hg; subst ha; subst hr
  rcases h with hw | ⟨hw, hp⟩
  · subst hw
    simp [process_jobs_iter, hv, exitAndHandle, handleExc, isCommitEv]
  · subst hw; subst hp
    simp [process_jobs_iter, hv, exitAndHandle, handleExc, isCommitEv]

/-- C9 witness: the critical-section RuntimeError theorem instantiated at
a concrete job with the work raising a RuntimeError. -/
theorem critical_section_runtime_error_swallowed_witness :
    ((process_jobs_iter job42 envWorkRte).1 =
       [.getStatus (statusKey job42.job_id), .acquireLock (lockName job42.device),
        .workRun job42.device, .releaseLock (lockName job42.device), .sleepBackoff 5] ∨
     (process_jobs_iter job42 envWorkRte).1 =
       [.getStatus (statusKey job42.job_id), .acquireLock (lockName job42.device),
        .workRun job42.device, .putStatus (statusKey job42.job_id) "COMPLETED",
        .releaseLock (lockName job42.device), .sleepBackoff 5]) ∧
    (process_jobs_iter job42 envWorkRte).2 = .next ∧
    (process_jobs_iter job42 envWorkRte).1.any isCommitEv = false :=
  critical_section_runtime_error_swallowed job42 envWorkRte none rfl rfl rfl rfl
    (Or.inl rfl)

/-- The dedup test holds exactly on the marker value COMPLETED. -/
theorem dedupHit_iff (v : Option String) :
    dedupHit v = true ↔ v = some "COMPLETED" := by
  rcases v with _ | s
  · simp [dedupHit]
  · simp only [dedupHit, Bool.and_eq_true, Bool.not_eq_true', beq_iff_eq,
      Option.some.injEq]
    constructor
    · rintro ⟨_, h⟩; exact h
    · rintro rfl; exact ⟨rfl, rfl⟩

/-- C10: the dedup check skips exactly when the stored value is the byte
string COMPLETED; any other present value or an absent key proceeds to
lock acquisition, and on successful work the key is overwritten with
COMPLETED. -/
theorem dedup_exact_marker (job : Job) (env : Env) (v : Option String)
    (hg : env.ledgerGet = .ok v) :
    (dedupHit v = true ↔ v = some "COMPLETED") ∧
    (dedupHit v = true → (process_jobs_iter job env).1.any isAcquireEv = false ∧
      (process_jobs_iter job env).1.any isCommitEv = true) ∧
    (dedupHit v = false → (process_jobs_iter job env).1.any isAcquireEv = true) ∧
    (dedupHit v = false → env.lockAcquire = .ok true → env.work = .ok () →
      Event.putStatus (statusKey job.job_id) "COMPLETED" ∈ (process_jobs_iter job env).1) := by
  rcases env with ⟨g, a, w, p, c, r⟩
  simp only at hg
  subst hg
  refine ⟨dedupHit_iff v, ?_, ?_, ?_⟩
  · intro hv
    rcases c with u | e <;> simp [process_jobs_iter, hv, isAcquireEv, isCommitEv]
  · intro hv
    rcases a with b | e
    · rcases b with _ | _
      · simp [process_jobs_iter, hv, handleExc, isAcquireEv]
      · rcases w with u | e
        · rcases p with u' | e'
          · rcases r with u'' | f
            · rcases c with u''' | e'''
              · simp [process_jobs_iter, hv, isAcquireEv]
              · cases e''' <;>
                  simp [process_jobs_iter, hv, handleExc, isAcquireEv]
            · cases f <;> simp [process_jobs_iter, hv, handleExc, isAcquireEv]
          · rcases r with u'' | f
            · cases e' <;>
                simp [process_jobs_iter, hv, exitAndHandle, handleExc, isAcquireEv]
            · cases f <;>
                simp [process_jobs_iter, hv, exitAndHandle, handleExc, isAcquireEv]
        · rcases r with u'' | f
          · cases e <;>
              simp [process_jobs_iter, hv, exitAndHandle, handleExc, isAcquireEv]
          · cases f <;>
              simp [process_jobs_iter, hv, exitAndHandle, handleExc, isAcquireEv]
    · cases e <;> simp [process_jobs_iter, hv, handleExc, isAcquireEv]
  · intro hv ha hw
    simp only at ha hw
    subst ha; subst hw
    rcases p with u' | e'
    · rcases r with u'' | f
      · rcases c with u''' | e'''
        · simp [process_jobs_iter, hv]
        · cases e''' <;> simp [process_jobs_iter, hv, handleExc]
      · cases f <;> simp [process_jobs_iter, hv, handleExc]
    · rcases r with u'' | f
      · cases e' <;> simp [process_jobs_iter, hv, exitAndHandle, handleExc]
      · cases f <;> simp [process_jobs_iter, hv, exitAndHandle, handleExc]

/-- Environment where the ledger holds a present but non-COMPLETED value
for the job and every external call succeeds. -/
def envStale : Env := ⟨.ok (some "PENDING"), .ok true, .ok (), .ok (), .ok (), .ok ()⟩

/-- C10 witness: the exact-marker theorem instantiated at a concrete job
with a stale non-COMPLETED ledger value. -/
theorem dedup_exact_marker_witness :
    (dedupHit (some "PENDING") = true ↔ some "PENDING" = some "COMPLETED") ∧
    (dedupHit (some "PENDING") = true →
      (process_jobs_iter job42 envStale).1.any isAcquireEv = false ∧
      (process_jobs_iter job42 envStale).1.any isCommitEv = true) ∧
    (dedupHit (some "PENDING") = false →
      (process_jobs_iter job42 envStale).1.any isAcquireEv = true) ∧
    (dedupHit (some "PENDING") = false → envStale.lockAcquire = .ok true →
      envStale.work = .ok () →
      Event.putStatus (statusKey job42.job_id) "COMPLETED" ∈
        (process_jobs_iter job42 envStale).1) :=
  dedup_exact_marker job42 envStale (some "PENDING") rfl
